import Mathlib

/-
Verification of the pico-knob firmware core (src/knob.c): the Gray-code
step classifier `gray_diff`, the per-tick HID report state machine in
`hid_task`, and the USB lifecycle callbacks.  The hardware and USB stack
are modelled as explicit inputs: `ready` is the value of
`tud_hid_ready()`, and `raw` is the 4-bit code composed from the four
encoder GPIO reads at this tick.
-/

namespace PicoKnob

/-- Blink interval while the device is not mounted (knob.c enum). -/
def BLINK_NOT_MOUNTED : Nat := 250

/-- Blink interval while the device is mounted (knob.c enum). -/
def BLINK_MOUNTED : Nat := 1000

/-- Blink interval while the bus is suspended (knob.c enum). -/
def BLINK_SUSPENDED : Nat := 2500

/-- HID usage id of the backslash key, sent for a clockwise step. -/
def HID_KEY_BACKSLASH : Nat := 0x31

/-- HID usage id of the right-bracket key, sent for a counter-clockwise step. -/
def HID_KEY_BRACKET_RIGHT : Nat := 0x30

/-- Modelled from the spec: the keyboard report id constant comes from
usb_descriptors.h, which is not under src/; the spec only says a fixed
`reportId` is passed to `sendKeyboardReport`, so its concrete value is
irrelevant to every claim. -/
def REPORT_ID_KEYBOARD : Nat := 1

/-- The fixed Gray-code lookup table, knob.c line 62:
`const char gray[] = {10, 11, 9, 8, 13, 12, 14, 15, 5, 4, 6, 7, 2, 3, 1, 0}`. -/
def gray : List Int := [10, 11, 9, 8, 13, 12, 14, 15, 5, 4, 6, 7, 2, 3, 1, 0]

theorem gray_length : gray.length = 16 := rfl

/-- Table lookup `gray[raw]` on a 4-bit raw pin code. -/
def grayLookup (raw : Fin 16) : Int := gray.get (Fin.cast gray_length.symm raw)

/-- `gray_diff` from knob.c lines 221-235: signed difference `curr - prev`
folded on the 16-position ring, with 0 and ±8 mapped to 0. -/
def gray_diff (prev curr : Int) : Int :=
  let diff := curr - prev
  if diff = 0 ∨ diff = -8 ∨ diff = 8 then 0
  else if diff > 8 then diff - 16
  else if diff < -8 then diff + 16
  else diff

/-- The process-wide mutable state of knob.c: the blink interval and the
four step-decoder globals `prev`, `curr`, `diff`, `clear_flag`. -/
structure KnobState where
  blink_interval_ms : Nat
  prev : Int
  curr : Int
  diff : Int
  clear_flag : Bool
deriving DecidableEq

/-- One keyboard report as handed to `tud_hid_keyboard_report`:
report id, modifier byte, and the six key codes. -/
structure KeyboardReport where
  report_id : Nat
  modifier : Nat
  keycode : List Nat
deriving DecidableEq

/-- The all-keys-released report: knob.c line 169 passes `NULL` key codes,
which the stack sends as six zero key codes. -/
def releaseReport : KeyboardReport :=
  { report_id := REPORT_ID_KEYBOARD, modifier := 0, keycode := [0, 0, 0, 0, 0, 0] }

/-- The key-press report built in knob.c lines 180-187 for a classified
delta `d`: key code 0 is backslash when `d > 0`, right bracket when `d < 0`. -/
def pressReport (d : Int) : KeyboardReport :=
  { report_id := REPORT_ID_KEYBOARD, modifier := 0,
    keycode := [if d > 0 then HID_KEY_BACKSLASH
                else if d < 0 then HID_KEY_BRACKET_RIGHT else 0,
                0, 0, 0, 0, 0] }

/-- One elapsed-interval invocation of `hid_task` (knob.c lines 165-193,
the keyboard section past the 10 ms rate limiter): `ready` is the value of
`tud_hid_ready()` and `raw` the 4-bit pin code the GPIO reads would
compose this tick.  Returns the new state and the report sent, if any. -/
def hid_task (ready : Bool) (raw : Fin 16) (s : KnobState) :
    KnobState × Option KeyboardReport :=
  if ready then
    if s.clear_flag then
      ({ s with clear_flag := false }, some releaseReport)
    else
      let c := grayLookup raw
      let d := gray_diff s.prev c
      if d ≠ 0 then
        ({ s with curr := c, diff := d, clear_flag := true, prev := c },
          some (pressReport d))
      else
        ({ s with curr := c, diff := d, prev := c }, none)
  else
    (s, none)

/-- Runs `hid_task` over a list of per-tick inputs, collecting the
per-tick report slots. -/
def runTicks (s : KnobState) : List (Bool × Fin 16) → KnobState × List (Option KeyboardReport)
  | [] => (s, [])
  | (ready, raw) :: rest =>
    let step := hid_task ready raw s
    let restRun := runTicks step.1 rest
    (restRun.1, step.2 :: restRun.2)

/-- `tud_mount_cb`, knob.c lines 100-103. -/
def tud_mount_cb (s : KnobState) : KnobState :=
  { s with blink_interval_ms := BLINK_MOUNTED }

/-- `tud_umount_cb`, knob.c lines 106-109. -/
def tud_umount_cb (s : KnobState) : KnobState :=
  { s with blink_interval_ms := BLINK_NOT_MOUNTED }

/-- `tud_suspend_cb`, knob.c lines 114-118 (ignores `remote_wakeup_en`). -/
def tud_suspend_cb (remote_wakeup_en : Bool) (s : KnobState) : KnobState :=
  { s with blink_interval_ms := BLINK_SUSPENDED }

/-- `tud_resume_cb`, knob.c lines 121-124. -/
def tud_resume_cb (s : KnobState) : KnobState :=
  { s with blink_interval_ms := BLINK_MOUNTED }

/-- Clockwise full revolution from `start`: the 16 classifications of the
consecutive single-detent moves `start + i → start + i + 1` on the ring. -/
def cwRevolution (start : Fin 16) : List Int :=
  (List.finRange 16).map fun i =>
    gray_diff ((start + i : Fin 16) : Int) ((start + i + 1 : Fin 16) : Int)

/-- Counter-clockwise full revolution from `start`: the 16 classifications
of the consecutive single-detent moves `start - i → start - i - 1`. -/
def ccwRevolution (start : Fin 16) : List Int :=
  (List.finRange 16).map fun i =>
    gray_diff ((start - i : Fin 16) : Int) ((start - i - 1 : Fin 16) : Int)

/-- A state in the pending-release branch whose baseline `prev = 5`
differs from the position the encoder pins would sample. -/
def releaseTickState : KnobState :=
  { blink_interval_ms := 250, prev := 5, curr := 5, diff := 0, clear_flag := true }

/-- A concrete idle state: baseline position 10 and no release owed. -/
def idleBaseState : KnobState :=
  { blink_interval_ms := 250, prev := 10, curr := 10, diff := 0, clear_flag := false }

/-- A non-ready tick changes nothing and sends nothing, so a run of
non-ready ticks returns the state unchanged and one empty report slot per
tick. -/
theorem runTicks_all_not_ready (s : KnobState) (raws : List (Fin 16)) :
    runTicks s (raws.map fun r => (false, r)) = (s, List.replicate raws.length none) := by
  induction raws with
  | nil => rfl
  | cons r rest ih => simp [runTicks, hid_task, ih, List.replicate]

/-- C3: on every pair of position indices in [0,15] the classifier is a
total function computing `curr - prev`; a raw difference of exactly 0, +8
or -8 yields 0; a raw difference above 8 has 16 subtracted and one below
-8 has 16 added; every result lies in (-8, 8]; and `classify(p, p) = 0`,
`classify(0, 8) = 0`, `classify(8, 0) = 0`. -/
theorem gray_diff_total_fold :
    ∀ p c : Fin 16,
      (((c : Int) - (p : Int) = 0 ∨ (c : Int) - (p : Int) = 8 ∨
          (c : Int) - (p : Int) = -8) → gray_diff (p : Int) (c : Int) = 0) ∧
      ((c : Int) - (p : Int) > 8 →
        gray_diff (p : Int) (c : Int) = (c : Int) - (p : Int) - 16) ∧
      ((c : Int) - (p : Int) < -8 →
        gray_diff (p : Int) (c : Int) = (c : Int) - (p : Int) + 16) ∧
      (-8 < gray_diff (p : Int) (c : Int) ∧ gray_diff (p : Int) (c : Int) ≤ 8) ∧
      gray_diff (p : Int) (p : Int) = 0 ∧
      gray_diff 0 8 = 0 ∧ gray_diff 8 0 = 0 := by decide

/-- C4: single-detent adjacency on the 16-position ring always classifies
as exactly +1 clockwise and -1 counter-clockwise, wraparound included. -/
theorem gray_diff_adjacent :
    ∀ p : Fin 16,
      gray_diff (p : Int) ((p + 1 : Fin 16) : Int) = 1 ∧
      gray_diff (p : Int) ((p - 1 : Fin 16) : Int) = -1 := by decide

/-- C6: the classifier is antisymmetric on [0,15] × [0,15], and in the
ambiguous raw-difference-±8 case both directions classify to 0. -/
theorem gray_diff_antisymm :
    (∀ a b : Fin 16,
      gray_diff (a : Int) (b : Int) = -gray_diff (b : Int) (a : Int)) ∧
    (∀ a b : Fin 16,
      ((b : Int) - (a : Int) = 8 ∨ (b : Int) - (a : Int) = -8) →
        gray_diff (a : Int) (b : Int) = 0 ∧ gray_diff (b : Int) (a : Int) = 0) := by
  decide

/-- C7: a full revolution of 16 consecutive single-detent moves in one
fixed direction yields exactly 16 classifications, each +1 clockwise and
each -1 counter-clockwise, and no move classifies as 0. -/
theorem full_revolution :
    ∀ start : Fin 16,
      cwRevolution start = List.replicate 16 1 ∧
      ccwRevolution start = List.replicate 16 (-1) ∧
      (0 : Int) ∉ cwRevolution start ∧ (0 : Int) ∉ ccwRevolution start := by
  decide

/-- C10: the 16-entry Gray table is a permutation of {0,...,15}: it has 16
pairwise-distinct entries, each in [0,15], the lookup is injective on raw
4-bit codes, and every position index in [0,15] is hit. -/
theorem gray_table_permutation :
    gray.length = 16 ∧ gray.Nodup ∧
    (∀ x ∈ gray, 0 ≤ x ∧ x ≤ 15) ∧
    (∀ a b : Fin 16, grayLookup a = grayLookup b → a = b) ∧
    (∀ v : Fin 16, ∃ raw : Fin 16, grayLookup raw = (v : Int)) := by decide

/-- A ready tick with the pending-release flag set sends the release
report and only clears the flag. -/
theorem hid_task_clear (s : KnobState) (raw : Fin 16) (h : s.clear_flag = true) :
    hid_task true raw s = ({ s with clear_flag := false }, some releaseReport) := by
  simp [hid_task, h]

/-- A ready idle tick with a nonzero classified delta sends the press
report, stores the sample and the delta, and sets the flag. -/
theorem hid_task_press (s : KnobState) (raw : Fin 16) (h : s.clear_flag = false)
    (hstep : gray_diff s.prev (grayLookup raw) ≠ 0) :
    hid_task true raw s =
      ({ s with curr := grayLookup raw, diff := gray_diff s.prev (grayLookup raw),
                clear_flag := true, prev := grayLookup raw },
        some (pressReport (gray_diff s.prev (grayLookup raw)))) := by
  simp [hid_task, h, hstep]

/-- C1 counterexample: on a ready tick with the pending-release flag set,
starting from baseline 5 while the pins would sample position
`grayLookup 0 = 10`, the tick leaves `prev` at 5: it does not refresh the
previous-position value to the current encoder sample. -/
theorem release_tick_stale_prev_cex :
    releaseTickState.clear_flag = true ∧
    (hid_task true 0 releaseTickState).1.prev ≠ grayLookup 0 := by decide

/-- C1 amended: on every ready tick with the pending-release flag set, the
tick sends the all-keys-released report and clears the flag (returning to
IDLE), but it does not sample the encoder: `prev` (and `curr` and `diff`)
are left unchanged, so the baseline stays the sample taken at the press
tick. -/
theorem release_tick_sends_release (s : KnobState) (raw : Fin 16)
    (h : s.clear_flag = true) :
    (hid_task true raw s).2 = some releaseReport ∧
    (hid_task true raw s).1.clear_flag = false ∧
    (hid_task true raw s).1.prev = s.prev ∧
    (hid_task true raw s).1.curr = s.curr ∧
    (hid_task true raw s).1.diff = s.diff := by
  simp [hid_task, h]

theorem release_tick_sends_release_witness :
    releaseTickState.clear_flag = true ∧
    ((hid_task true 3 releaseTickState).2 = some releaseReport ∧
      (hid_task true 3 releaseTickState).1.clear_flag = false ∧
      (hid_task true 3 releaseTickState).1.prev = releaseTickState.prev ∧
      (hid_task true 3 releaseTickState).1.curr = releaseTickState.curr ∧
      (hid_task true 3 releaseTickState).1.diff = releaseTickState.diff) :=
  ⟨rfl, release_tick_sends_release releaseTickState 3 rfl⟩

/-- C2: from an idle state, a ready tick whose classified delta is nonzero
sends exactly one key-press report (which is not the release report) and
sets the pending-release flag; any run of non-ready ticks while the
release is owed sends nothing and changes nothing; and the next ready
tick, whatever the pins then read, sends exactly the all-keys-released
report and returns to idle. -/
theorem step_press_then_release (s : KnobState) (raw : Fin 16)
    (hidle : s.clear_flag = false)
    (hstep : gray_diff s.prev (grayLookup raw) ≠ 0)
    (gap : List (Fin 16)) (raw2 : Fin 16) :
    (hid_task true raw s).2 = some (pressReport (gray_diff s.prev (grayLookup raw))) ∧
    pressReport (gray_diff s.prev (grayLookup raw)) ≠ releaseReport ∧
    (hid_task true raw s).1.clear_flag = true ∧
    runTicks (hid_task true raw s).1 (gap.map fun r => (false, r)) =
      ((hid_task true raw s).1, List.replicate gap.length none) ∧
    (hid_task true raw2 (hid_task true raw s).1).2 = some releaseReport ∧
    (hid_task true raw2 (hid_task true raw s).1).1.clear_flag = false := by
  have hp := hid_task_press s raw hidle hstep
  have hflag : (hid_task true raw s).1.clear_flag = true := by rw [hp]
  have hc := hid_task_clear (hid_task true raw s).1 raw2 hflag
  refine ⟨by rw [hp], ?_, hflag,
    runTicks_all_not_ready _ gap, by rw [hc], by rw [hc]⟩
  rcases lt_trichotomy (gray_diff s.prev (grayLookup raw)) 0 with hneg | h0 | hpos
  · simp [pressReport, releaseReport, hneg, not_lt_of_gt hneg, HID_KEY_BRACKET_RIGHT]
  · exact absurd h0 hstep
  · simp [pressReport, releaseReport, hpos, HID_KEY_BACKSLASH]

theorem step_press_then_release_witness :
    idleBaseState.clear_flag = false ∧
    gray_diff idleBaseState.prev (grayLookup 1) ≠ 0 ∧
    ((hid_task true 1 idleBaseState).2 =
        some (pressReport (gray_diff idleBaseState.prev (grayLookup 1))) ∧
      pressReport (gray_diff idleBaseState.prev (grayLookup 1)) ≠ releaseReport ∧
      (hid_task true 1 idleBaseState).1.clear_flag = true ∧
      runTicks (hid_task true 1 idleBaseState).1 ([2, 5].map fun r => (false, r)) =
        ((hid_task true 1 idleBaseState).1, List.replicate ([2, 5] : List (Fin 16)).length none) ∧
      (hid_task true 4 (hid_task true 1 idleBaseState).1).2 = some releaseReport ∧
      (hid_task true 4 (hid_task true 1 idleBaseState).1).1.clear_flag = false) :=
  ⟨rfl, by decide, step_press_then_release idleBaseState 1 rfl (by decide) [2, 5] 4⟩

/-- C5: on a ready tick in the idle state, a positive classified delta
sends a report whose single key code is backslash and sets the
pending-release flag; a negative delta sends one with the right-bracket
key and sets the flag; a zero delta sends nothing and stays idle; and in
every branch `prev` is updated to the just-sampled position. -/
theorem idle_tick_cases (s : KnobState) (raw : Fin 16)
    (h : s.clear_flag = false) :
    (gray_diff s.prev (grayLookup raw) > 0 →
      (hid_task true raw s).2 =
        some { report_id := REPORT_ID_KEYBOARD, modifier := 0,
               keycode := [HID_KEY_BACKSLASH, 0, 0, 0, 0, 0] } ∧
      (hid_task true raw s).1.clear_flag = true) ∧
    (gray_diff s.prev (grayLookup raw) < 0 →
      (hid_task true raw s).2 =
        some { report_id := REPORT_ID_KEYBOARD, modifier := 0,
               keycode := [HID_KEY_BRACKET_RIGHT, 0, 0, 0, 0, 0] } ∧
      (hid_task true raw s).1.clear_flag = true) ∧
    (gray_diff s.prev (grayLookup raw) = 0 →
      (hid_task true raw s).2 = none ∧
      (hid_task true raw s).1.clear_flag = false) ∧
    (hid_task true raw s).1.prev = grayLookup raw := by
  refine ⟨?_, ?_, ?_, ?_⟩
  · intro hpos
    have hne : gray_diff s.prev (grayLookup raw) ≠ 0 := by omega
    simp [hid_task, h, hne, pressReport, hpos]
  · intro hneg
    have hne : gray_diff s.prev (grayLookup raw) ≠ 0 := by omega
    have hnp : ¬ gray_diff s.prev (grayLookup raw) > 0 := by omega
    simp [hid_task, h, hne, pressReport, hneg, hnp]
  · intro h0
    simp [hid_task, h, h0]
  · by_cases h0 : gray_diff s.prev (grayLookup raw) = 0 <;>
      simp [hid_task, h, h0]

theorem idle_tick_cases_witness :
    idleBaseState.clear_flag = false ∧
    ((gray_diff idleBaseState.prev (grayLookup 1) > 0 →
      (hid_task true 1 idleBaseState).2 =
        some { report_id := REPORT_ID_KEYBOARD, modifier := 0,
               keycode := [HID_KEY_BACKSLASH, 0, 0, 0, 0, 0] } ∧
      (hid_task true 1 idleBaseState).1.clear_flag = true) ∧
    (gray_diff idleBaseState.prev (grayLookup 1) < 0 →
      (hid_task true 1 idleBaseState).2 =
        some { report_id := REPORT_ID_KEYBOARD, modifier := 0,
               keycode := [HID_KEY_BRACKET_RIGHT, 0, 0, 0, 0, 0] } ∧
      (hid_task true 1 idleBaseState).1.clear_flag = true) ∧
    (gray_diff idleBaseState.prev (grayLookup 1) = 0 →
      (hid_task true 1 idleBaseState).2 = none ∧
      (hid_task true 1 idleBaseState).1.clear_flag = false) ∧
    (hid_task true 1 idleBaseState).1.prev = grayLookup 1) :=
  ⟨rfl, idle_tick_cases idleBaseState 1 rfl⟩

/-- C8: if the transport is never ready then over any number of ticks no
report is ever sent, the state stays idle, and the previous-position
baseline is never updated: the whole state is untouched. -/
theorem never_ready_no_reports (s : KnobState) (raws : List (Fin 16))
    (h : s.clear_flag = false) :
    (runTicks s (raws.map fun r => (false, r))).1 = s ∧
    (runTicks s (raws.map fun r => (false, r))).1.clear_flag = false ∧
    (runTicks s (raws.map fun r => (false, r))).1.prev = s.prev ∧
    (runTicks s (raws.map fun r => (false, r))).2 = List.replicate raws.length none := by
  have hr := runTicks_all_not_ready s raws
  exact ⟨by rw [hr], by rw [hr]; exact h, by rw [hr], by rw [hr]⟩

theorem never_ready_no_reports_witness :
    idleBaseState.clear_flag = false ∧
    ((runTicks idleBaseState ([3, 7, 0].map fun r => (false, r))).1 = idleBaseState ∧
      (runTicks idleBaseState ([3, 7, 0].map fun r => (false, r))).1.clear_flag = false ∧
      (runTicks idleBaseState ([3, 7, 0].map fun r => (false, r))).1.prev = idleBaseState.prev ∧
      (runTicks idleBaseState ([3, 7, 0].map fun r => (false, r))).2 =
        List.replicate ([3, 7, 0] : List (Fin 16)).length none) :=
  ⟨rfl, never_ready_no_reports idleBaseState [3, 7, 0] rfl⟩

/-- C9: the four USB lifecycle callbacks set only the blink interval and
leave the step-decoder state (`prev`, `curr`, `diff`, `clear_flag`)
unchanged. -/
theorem lifecycle_callbacks_frame :
    ∀ (s : KnobState) (wake : Bool),
      ((tud_mount_cb s).prev = s.prev ∧ (tud_mount_cb s).curr = s.curr ∧
        (tud_mount_cb s).diff = s.diff ∧ (tud_mount_cb s).clear_flag = s.clear_flag ∧
        (tud_mount_cb s).blink_interval_ms = BLINK_MOUNTED) ∧
      ((tud_umount_cb s).prev = s.prev ∧ (tud_umount_cb s).curr = s.curr ∧
        (tud_umount_cb s).diff = s.diff ∧ (tud_umount_cb s).clear_flag = s.clear_flag ∧
        (tud_umount_cb s).blink_interval_ms = BLINK_NOT_MOUNTED) ∧
      ((tud_suspend_cb wake s).prev = s.prev ∧ (tud_suspend_cb wake s).curr = s.curr ∧
        (tud_suspend_cb wake s).diff = s.diff ∧
        (tud_suspend_cb wake s).clear_flag = s.clear_flag ∧
        (tud_suspend_cb wake s).blink_interval_ms = BLINK_SUSPENDED) ∧
      ((tud_resume_cb s).prev = s.prev ∧ (tud_resume_cb s).curr = s.curr ∧
        (tud_resume_cb s).diff = s.diff ∧ (tud_resume_cb s).clear_flag = s.clear_flag ∧
        (tud_resume_cb s).blink_interval_ms = BLINK_MOUNTED) := by
  intro s wake
  exact ⟨⟨rfl, rfl, rfl, rfl, rfl⟩, ⟨rfl, rfl, rfl, rfl, rfl⟩,
    ⟨rfl, rfl, rfl, rfl, rfl⟩, ⟨rfl, rfl, rfl, rfl, rfl⟩⟩

end PicoKnob
